import Mathlib

/-!
Verification of the alert-ingestion core of the DevOps RCA webhook service
(`services/webhook/main.py`).

The embedding models:
* `Json` — the JSON values exchanged with the downstream agent and returned
  in the aggregate response (Python dicts become ordered field lists);
* `Alert` / `Webhook` — the pydantic models `Alert` and `AlertManagerWebhook`;
* `Cache` — the module-level `recent_alerts` dict mapping fingerprints to
  last-processed timestamps (time is modelled as natural-number seconds);
* `is_duplicate_alert`, `cleanup_alert_cache`, and the inline dict write
  `recent_alerts[fp] = now` (`markProcessed`);
* `build_investigation_prompt` — the pure prompt formatter;
* `trigger_agent_investigation` — the dispatcher, with the HTTP exchange
  abstracted as an oracle from the request prompt to an `HttpOutcome`, and
  Python exception flow made explicit through `Except PyExc`;
* `receive_alertmanager_webhook` — the controller loop, generic in the
  per-alert dispatch call (an `Alert → Except String Json` function, where
  `.error e` models an exception with message `e` escaping the dispatch call
  and reaching the controller's per-alert `except` handler).
-/

/-- JSON values. Objects keep their fields in insertion order, matching
Python dict semantics. -/
inductive Json where
  | null
  | bool (b : Bool)
  | num (n : Int)
  | str (s : String)
  | arr (elems : List Json)
  | obj (fields : List (String × Json))
  deriving Repr

/-- Field lookup on a JSON object (first match, like a Python dict key). -/
def Json.getField : Json → String → Option Json
  | .obj fields, k => List.lookup k fields
  | _, _ => none

/-- Pydantic model `Alert`: a single alert from AlertManager.  Label and
annotation dicts are ordered association lists of strings. -/
structure Alert where
  status : String
  labels : List (String × String)
  annotations : List (String × String)
  startsAt : String
  endsAt : Option String
  generatorURL : String
  fingerprint : String
  deriving DecidableEq, Repr

/-- Pydantic model `AlertManagerWebhook`: the webhook envelope. -/
structure Webhook where
  version : String
  groupKey : String
  status : String
  receiver : String
  groupLabels : List (String × String)
  commonLabels : List (String × String)
  commonAnnotations : List (String × String)
  externalURL : String
  alerts : List Alert
  deriving DecidableEq, Repr

/-- The module-level `recent_alerts` dict: fingerprint ↦ timestamp of the
last accepted firing, in insertion order.  Timestamps are naturals
(seconds). -/
abbrev Cache := List (String × Nat)

/-- The TTL `ALERT_CACHE_TTL = timedelta(minutes=5)`, in seconds. -/
def ALERT_CACHE_TTL : Nat := 300

/-- Function `is_duplicate_alert(fingerprint)`: looks the fingerprint up in
`recent_alerts`; a fresh entry means duplicate, an expired entry is deleted
(`del recent_alerts[fingerprint]`) and the call returns `False`.  The cache
is threaded explicitly; `now` is the value of `datetime.utcnow()`. -/
def is_duplicate_alert (fingerprint : String) (now : Nat) (cache : Cache) :
    Bool × Cache :=
  match List.lookup fingerprint cache with
  | some alert_time =>
    if now - alert_time < ALERT_CACHE_TTL then
      (true, cache)
    else
      (false, List.filter (fun p => p.1 != fingerprint) cache)
  | none => (false, cache)

/-- Function `cleanup_alert_cache()`: deletes every entry whose age is at least the
TTL (the source collects the expired fingerprints, then deletes each). -/
def cleanup_alert_cache (now : Nat) (cache : Cache) : Cache :=
  List.filter (fun p => !(decide (now - p.2 ≥ ALERT_CACHE_TTL))) cache

/-- The inline dict write `recent_alerts[alert.fingerprint] = datetime.utcnow()`
in the controller loop: overwrite in place when the key exists (dicts keep
the key's position), append otherwise. -/
def markProcessed (fingerprint : String) (now : Nat) (cache : Cache) : Cache :=
  if (List.lookup fingerprint cache).isSome then
    List.map (fun p => if p.1 = fingerprint then (fingerprint, now) else p) cache
  else
    cache ++ [(fingerprint, now)]

/-- The Python join operation `sep.join(xs)`. -/
def pyJoin (sep : String) : List String → String
  | [] => ""
  | [x] => x
  | x :: y :: rest => x ++ sep ++ pyJoin sep (y :: rest)

/-- The per-pair formatter `f"  {k}: {v}"` used for labels and annotations. -/
def fmtPair (p : String × String) : String :=
  "  " ++ p.1 ++ ": " ++ p.2

/-- Function `build_investigation_prompt(alert, webhook)`: the f-string from the
source, written as explicit concatenation (literal segments are split at
the field-label boundaries; the concatenated text is unchanged).
`labels.get(k, default)` becomes `(List.lookup k labels).getD default`. -/
def build_investigation_prompt (alert : Alert) (webhook : Webhook) : String :=
  let alert_name := (List.lookup "alertname" alert.labels).getD "Unknown"
  let severity := (List.lookup "severity" alert.labels).getD "unknown"
  let namespc := (List.lookup "namespace" alert.labels).getD "unknown"
  let pod := (List.lookup "pod" alert.labels).getD "unknown"
  let labels_str := pyJoin "\n" (List.map fmtPair alert.labels)
  let annotations_str := pyJoin "\n" (List.map fmtPair alert.annotations)
  "ALERT RECEIVED - INVESTIGATE AND ANALYZE\n\n" ++
  "Alert Name: " ++ alert_name ++ "\n" ++
  "Severity: " ++ severity ++ "\n" ++
  "Status: " ++ alert.status ++ "\n" ++
  "Started At: " ++ alert.startsAt ++ "\n" ++
  "Fingerprint: " ++ alert.fingerprint ++
  "\n\nALERT LABELS:\n" ++ labels_str ++
  "\n\nALERT ANNOTATIONS:\n" ++ annotations_str ++
  "\n\nGENERATOR URL:\n" ++ alert.generatorURL ++
  "\n\nCONTEXT:\n" ++
  "- Namespace: " ++ namespc ++ "\n" ++
  "- Pod: " ++ pod ++ "\n" ++
  "- Group Key: " ++ webhook.groupKey ++
  "\n\nINSTRUCTIONS FOR MVP PHASE:\n\n1. Read your memory files to understand the cluster context\n   - Check discovered-tools.md for known services\n   - Review known-issues.md for similar past issues\n   - Check namespace-map.md for namespace topology\n\n2. Based on the alert type and your knowledge:\n   - Identify the likely cause\n   - Suggest investigation commands\n   - Recommend immediate actions\n\n3. Provide a clear, concise response with:\n   - What you know about this service/namespace\n   - Likely root causes based on alert type\n   - Specific kubectl commands to investigate further\n   - Immediate mitigation suggestions\n\nFor this MVP phase, focus on analysis and recommendations.\nFull automated investigation will be added in Phase 3.\n\nBegin your analysis now.\n"

/-- Outcome of the HTTP exchange `client.post(...)` + `raise_for_status()`
+ `response.json()`, abstracted as seen by the dispatcher:
* `success body` — 2xx status, body decodes to `body`;
* `badJson msg` — 2xx status but `response.json()` raises (message `msg`);
* `badStatus code text` — non-2xx status, `raise_for_status()` raises
  `httpx.HTTPStatusError` with that status code and response text;
* `timedOut` — the request exceeds the client timeout
  (`HTTP_TIMEOUT_SECONDS`), `httpx.TimeoutException` is raised;
* `transportFailure msg` — any other transport-level failure (connection
  refused, DNS error, ...), raised as some other `Exception`. -/
inductive HttpOutcome where
  | success (body : Json)
  | badJson (msg : String)
  | badStatus (code : Nat) (text : String)
  | timedOut
  | transportFailure (msg : String)

/-- The Python exceptions that the `try` block of
`trigger_agent_investigation` can raise, matching its `except` clauses. -/
inductive PyExc where
  | timeoutException
  | httpStatusError (code : Nat) (text : String)
  | otherException (msg : String)

/-- Computes `str(e)` for an uncaught exception (used by the controller's
per-alert handler). -/
def PyExc.toStr : PyExc → String
  | .timeoutException => "timed out"
  | .httpStatusError code _ => "HTTP status error " ++ toString code
  | .otherException msg => msg

/-- From `httpx.AsyncClient(timeout=300.0)`: the fixed request timeout in
seconds.  An `HttpOutcome.timedOut` models the request exceeding it. -/
def HTTP_TIMEOUT_SECONDS : Nat := 300

/-- The `try` block of `trigger_agent_investigation`: post the request,
raise on bad status, decode the body.  `Except.error` models a raised
exception. -/
def tryBody (outcome : HttpOutcome) : Except PyExc Json :=
  match outcome with
  | .success body => .ok body
  | .badJson msg => .error (.otherException msg)
  | .badStatus code text => .error (.httpStatusError code text)
  | .timedOut => .error .timeoutException
  | .transportFailure msg => .error (.otherException msg)

/-- The dict `{"status": "timeout", "error": "Agent investigation timed out"}`
returned from the `except httpx.TimeoutException` clause. -/
def timeoutResult : Json :=
  .obj [("status", .str "timeout"), ("error", .str "Agent investigation timed out")]

/-- The dict returned from the `except httpx.HTTPStatusError` clause. -/
def statusErrorResult (code : Nat) (text : String) : Json :=
  .obj [("status", .str "error"), ("error", .str ("HTTP " ++ toString code)),
        ("details", .str text)]

/-- The dict `{"status": "error", "error": str(e)}` returned from the final
`except Exception` clause. -/
def errorResult (msg : String) : Json :=
  .obj [("status", .str "error"), ("error", .str msg)]

/-- Function `trigger_agent_investigation(alert, webhook)`: builds the prompt, posts
it (the network is the oracle `net` from the request prompt to an
`HttpOutcome`), and converts every raised exception via the `except`
clauses.  The codomain `Except PyExc Json` makes "raises past its own
boundary" expressible: an `.error` value would be an escaped exception. -/
def trigger_agent_investigation (net : String → HttpOutcome) (alert : Alert)
    (webhook : Webhook) : Except PyExc Json :=
  let prompt := build_investigation_prompt alert webhook
  match tryBody (net prompt) with
  | .ok j => .ok j
  | .error .timeoutException => .ok timeoutResult
  | .error (.httpStatusError code text) => .ok (statusErrorResult code text)
  | .error (.otherException msg) => .ok (errorResult msg)

/-- The controller's per-alert call `await trigger_agent_investigation(alert,
webhook)`, with the network response to each alert's request given by
`oracle`.  An `.error` value would be an exception escaping into the
controller's `except` handler, converted there by `str(e)`. -/
def dispatchOf (oracle : Alert → HttpOutcome) (webhook : Webhook)
    (alert : Alert) : Except String Json :=
  match trigger_agent_investigation (fun _ => oracle alert) alert webhook with
  | .ok j => .ok j
  | .error e => .error e.toStr

/-- The dict appended on a successful dispatch (lines 132-137 of the
source). -/
def triggeredEntry (fingerprint alertname : String) (result : Json) : Json :=
  .obj [("fingerprint", .str fingerprint), ("alertname", .str alertname),
        ("status", .str "triggered"), ("result", result)]

/-- The dict appended by the per-alert `except` handler (lines 141-145 of
the source).  Note: no `alertname` field. -/
def errorEntry (fingerprint error : String) : Json :=
  .obj [("fingerprint", .str fingerprint), ("status", .str "error"),
        ("error", .str error)]

/-- One iteration of the controller's `for alert in webhook.alerts` loop,
threading the `(results, recent_alerts)` state.  `dispatch` is the per-alert
investigation call; `dispatch alert = .error e` models an exception with
message `e` escaping that call and reaching the `except` handler. -/
def processAlert (dispatch : Alert → Except String Json) (now : Nat)
    (st : List Json × Cache) (alert : Alert) : List Json × Cache :=
  if alert.status ≠ "firing" then st
  else
    match is_duplicate_alert alert.fingerprint now st.2 with
    | (true, cache1) => (st.1, cache1)
    | (false, cache1) =>
      let cache2 := markProcessed alert.fingerprint now cache1
      let alert_name := (List.lookup "alertname" alert.labels).getD "Unknown"
      match dispatch alert with
      | .ok result =>
        (st.1 ++ [triggeredEntry alert.fingerprint alert_name result], cache2)
      | .error e =>
        (st.1 ++ [errorEntry alert.fingerprint e], cache2)

/-- Handler `receive_alertmanager_webhook(webhook)`: sweep the cache, run the
per-alert loop, return the aggregate response dict together with the final
cache state. -/
def receive_alertmanager_webhook (dispatch : Alert → Except String Json)
    (now : Nat) (cache : Cache) (webhook : Webhook) : Json × Cache :=
  let cache0 := cleanup_alert_cache now cache
  let res := List.foldl (processAlert dispatch now) ([], cache0) webhook.alerts
  (.obj [("status", .str "processed"),
         ("webhook_group", .str webhook.groupKey),
         ("alerts_received", .num (webhook.alerts.length : Int)),
         ("alerts_processed", .num (res.1.length : Int)),
         ("results", .arr res.1)],
   res.2)

/-- An inbound `Alert` JSON object before validation: every declared field
may be absent. -/
structure RawAlert where
  status : Option String
  labels : Option (List (String × String))
  annotations : Option (List (String × String))
  startsAt : Option String
  endsAt : Option String
  generatorURL : Option String
  fingerprint : Option String

/-- An inbound `AlertManagerWebhook` JSON object before validation. -/
structure RawWebhook where
  version : Option String
  groupKey : Option String
  status : Option String
  receiver : Option String
  groupLabels : Option (List (String × String))
  commonLabels : Option (List (String × String))
  commonAnnotations : Option (List (String × String))
  externalURL : Option String
  alerts : Option (List RawAlert)

/-- Pydantic validation of one `Alert`: every field except `endsAt`
(declared `Optional[str] = None`) is required. -/
def parseAlert (r : RawAlert) : Except String Alert :=
  match r.status, r.labels, r.annotations, r.startsAt, r.generatorURL,
      r.fingerprint with
  | some status, some labels, some annos, some startsAt, some gen, some fp =>
    .ok ⟨status, labels, annos, startsAt, r.endsAt, gen, fp⟩
  | none, _, _, _, _, _ => .error "alert.status: field required"
  | _, none, _, _, _, _ => .error "alert.labels: field required"
  | _, _, none, _, _, _ => .error "alert.annotations: field required"
  | _, _, _, none, _, _ => .error "alert.startsAt: field required"
  | _, _, _, _, none, _ => .error "alert.generatorURL: field required"
  | _, _, _, _, _, none => .error "alert.fingerprint: field required"

/-- Pydantic validation of a list of alerts, first failure wins. -/
def parseAlerts : List RawAlert → Except String (List Alert)
  | [] => .ok []
  | r :: rest =>
    match parseAlert r, parseAlerts rest with
    | .ok a, .ok rest' => .ok (a :: rest')
    | .error e, _ => .error e
    | _, .error e => .error e

/-- Pydantic validation of the `AlertManagerWebhook` envelope: every
declared field is required, and each contained alert must itself
validate. -/
def parseWebhook (w : RawWebhook) : Except String Webhook :=
  match w.version, w.groupKey, w.status, w.receiver, w.groupLabels,
      w.commonLabels, w.commonAnnotations, w.externalURL, w.alerts with
  | some version, some groupKey, some status, some receiver, some gl, some cl,
      some ca, some eu, some rawAlerts =>
    match parseAlerts rawAlerts with
    | .ok alerts =>
      .ok ⟨version, groupKey, status, receiver, gl, cl, ca, eu, alerts⟩
    | .error e => .error e
  | none, _, _, _, _, _, _, _, _ => .error "version: field required"
  | _, none, _, _, _, _, _, _, _ => .error "groupKey: field required"
  | _, _, none, _, _, _, _, _, _ => .error "status: field required"
  | _, _, _, none, _, _, _, _, _ => .error "receiver: field required"
  | _, _, _, _, none, _, _, _, _ => .error "groupLabels: field required"
  | _, _, _, _, _, none, _, _, _ => .error "commonLabels: field required"
  | _, _, _, _, _, _, none, _, _ => .error "commonAnnotations: field required"
  | _, _, _, _, _, _, _, none, _ => .error "externalURL: field required"
  | _, _, _, _, _, _, _, _, none => .error "alerts: field required"

/-- The full request boundary: FastAPI validates the body against the
`AlertManagerWebhook` model before the handler body runs; a validation
failure rejects the request (`.error`) and the handler — and hence any
cache access — never executes. -/
def handleWebhookRequest (dispatch : Alert → Except String Json) (now : Nat)
    (cache : Cache) (raw : RawWebhook) : Except String Json × Cache :=
  match parseWebhook raw with
  | .error e => (.error e, cache)
  | .ok webhook =>
    let res := receive_alertmanager_webhook dispatch now cache webhook
    (.ok res.1, res.2)

/-- Returns true iff some required field of the alert object
is absent. -/
def RawAlert.missingRequired (r : RawAlert) : Bool :=
  r.status.isNone || r.labels.isNone || r.annotations.isNone ||
  r.startsAt.isNone || r.generatorURL.isNone || r.fingerprint.isNone

/-- Returns true iff the envelope is missing a required field, directly or inside
one of its alerts. -/
def RawWebhook.missingRequired (w : RawWebhook) : Bool :=
  w.version.isNone || w.groupKey.isNone || w.status.isNone ||
  w.receiver.isNone || w.groupLabels.isNone || w.commonLabels.isNone ||
  w.commonAnnotations.isNone || w.externalURL.isNone ||
  (match w.alerts with
   | none => true
   | some rs => rs.any RawAlert.missingRequired)

/-- Substring occurrence: `sub` occurs contiguously inside `s`. -/
def ContainsStr (s sub : String) : Prop :=
  ∃ pre post, s = pre ++ sub ++ post

/-- The result entries contributed by one alert when the loop body starts
from an empty result list: `[]` for a skipped alert, a singleton
otherwise. -/
def alertContrib (dispatch : Alert → Except String Json) (now : Nat)
    (cache : Cache) (alert : Alert) : List Json :=
  (processAlert dispatch now ([], cache) alert).1

/-- The cache state after one alert's loop iteration. -/
def alertNextCache (dispatch : Alert → Except String Json) (now : Nat)
    (cache : Cache) (alert : Alert) : Cache :=
  (processAlert dispatch now ([], cache) alert).2

/-- The per-alert contributions of a batch, in input order. -/
def alertTrace (dispatch : Alert → Except String Json) (now : Nat) :
    Cache → List Alert → List (List Json)
  | _, [] => []
  | cache, alert :: rest =>
    alertContrib dispatch now cache alert ::
      alertTrace dispatch now (alertNextCache dispatch now cache alert) rest

/-! ### Association-list lemmas for the dedup cache -/

theorem lookup_filter_key_ne (fp : String) (l : Cache) :
    List.lookup fp (List.filter (fun p => p.1 != fp) l) = none := by
  induction l with
  | nil => simp
  | cons hd tl ih =>
    obtain ⟨k, v⟩ := hd
    by_cases h : k = fp
    · subst h
      rw [List.filter_cons_of_neg (by simp)]
      exact ih
    · rw [List.filter_cons_of_pos (by simp [h])]
      rw [List.lookup_cons]
      have : (fp == k) = false := by simp [Ne.symm h]
      rw [this]
      exact ih

theorem lookup_filter_of_pass (p : String × Nat → Bool) (fp : String) (v : Nat)
    (l : Cache) (hl : List.lookup fp l = some v) (hp : p (fp, v) = true) :
    List.lookup fp (List.filter p l) = some v := by
  induction l with
  | nil => simp at hl
  | cons hd tl ih =>
    obtain ⟨k, b⟩ := hd
    rw [List.lookup_cons] at hl
    by_cases h : fp = k
    · subst h
      simp only [beq_self_eq_true] at hl
      obtain rfl : b = v := by simpa using hl
      rw [List.filter_cons_of_pos hp]
      simp [List.lookup_cons]
    · have hbe : (fp == k) = false := by simp [h]
      rw [hbe] at hl
      by_cases hk : p (k, b) = true
      · rw [List.filter_cons_of_pos hk, List.lookup_cons, hbe]
        exact ih hl
      · rw [List.filter_cons_of_neg (by simpa using hk)]
        exact ih hl

theorem lookup_map_overwrite (fp : String) (now : Nat) (c : Cache)
    (h : (List.lookup fp c).isSome) :
    List.lookup fp
      (List.map (fun p => if p.1 = fp then (fp, now) else p) c) = some now := by
  induction c with
  | nil => simp at h
  | cons hd tl ih =>
    obtain ⟨k, b⟩ := hd
    by_cases hk : k = fp
    · subst hk
      simp [List.lookup_cons]
    · have hbe : (fp == k) = false := by simp [Ne.symm hk]
      rw [List.lookup_cons, hbe] at h
      simp only [List.map_cons, if_neg hk]
      rw [List.lookup_cons, hbe]
      exact ih h

theorem lookup_map_overwrite_ne (k fp : String) (now : Nat) (c : Cache)
    (h : k ≠ fp) :
    List.lookup k (List.map (fun p => if p.1 = fp then (fp, now) else p) c) =
      List.lookup k c := by
  induction c with
  | nil => simp
  | cons hd tl ih =>
    obtain ⟨k', b⟩ := hd
    by_cases hk : k' = fp
    · subst hk
      have hbe : (k == k') = false := by simp [h]
      simp [List.lookup_cons, hbe, ih]
    · simp only [List.map_cons, if_neg hk]
      rw [List.lookup_cons, List.lookup_cons]
      cases k == k' <;> simp [ih]

theorem lookup_append_single_ne (k fp : String) (now : Nat) (c : Cache)
    (h : k ≠ fp) :
    List.lookup k (c ++ [(fp, now)]) = List.lookup k c := by
  induction c with
  | nil =>
    have hbe : (k == fp) = false := by simp [h]
    simp [List.lookup_cons, hbe]
  | cons hd tl ih =>
    obtain ⟨k', b⟩ := hd
    rw [List.cons_append, List.lookup_cons, List.lookup_cons]
    cases k == k' <;> simp [ih]

theorem lookup_append_single_self (fp : String) (now : Nat) (c : Cache)
    (h : List.lookup fp c = none) :
    List.lookup fp (c ++ [(fp, now)]) = some now := by
  induction c with
  | nil => simp
  | cons hd tl ih =>
    obtain ⟨k, b⟩ := hd
    rw [List.lookup_cons] at h
    rw [List.cons_append, List.lookup_cons]
    cases hbe : fp == k with
    | true => rw [hbe] at h; simp at h
    | false => rw [hbe] at h; exact ih h

theorem lookup_markProcessed_self (fp : String) (now : Nat) (c : Cache) :
    List.lookup fp (markProcessed fp now c) = some now := by
  unfold markProcessed
  by_cases h : (List.lookup fp c).isSome
  · rw [if_pos h]
    exact lookup_map_overwrite fp now c h
  · rw [if_neg h]
    exact lookup_append_single_self fp now c
      (by cases hl : List.lookup fp c with
          | none => rfl
          | some t => rw [hl] at h; simp at h)

theorem lookup_markProcessed_ne (k fp : String) (now : Nat) (c : Cache)
    (h : k ≠ fp) :
    List.lookup k (markProcessed fp now c) = List.lookup k c := by
  unfold markProcessed
  by_cases hs : (List.lookup fp c).isSome
  · rw [if_pos hs]
    exact lookup_map_overwrite_ne k fp now c h
  · rw [if_neg hs]
    exact lookup_append_single_ne k fp now c h

/-- Claim C2: `is_duplicate_alert(F)` returns `True` iff an entry for `F`
exists and is strictly younger than the 5-minute TTL; an existing but
expired entry is removed from the cache as a side effect and the call
returns `False`. -/
theorem c2_dedup_read_contract (fp : String) (now : Nat) (cache : Cache) :
    ((is_duplicate_alert fp now cache).1 = true ↔
      ∃ t, List.lookup fp cache = some t ∧ now - t < ALERT_CACHE_TTL) ∧
    (∀ t, List.lookup fp cache = some t → ¬ now - t < ALERT_CACHE_TTL →
      (is_duplicate_alert fp now cache).1 = false ∧
      List.lookup fp (is_duplicate_alert fp now cache).2 = none) := by
  constructor
  · cases hl : List.lookup fp cache with
    | none => simp [is_duplicate_alert, hl]
    | some t =>
      by_cases ht : now - t < ALERT_CACHE_TTL <;>
        simp [is_duplicate_alert, hl, ht]
  · intro t hl ht
    exact ⟨by simp [is_duplicate_alert, hl, ht],
           by simp [is_duplicate_alert, hl, ht, lookup_filter_key_ne]⟩

/-- Witness for C2 at a concrete expired entry: fingerprint `"fp"`,
timestamp `0`, queried at `now = 400 ≥ 300`. -/
theorem c2_dedup_read_contract_witness :
    (is_duplicate_alert "fp" 400 [("fp", 0)]).1 = false ∧
    List.lookup "fp" (is_duplicate_alert "fp" 400 [("fp", 0)]).2 = none :=
  (c2_dedup_read_contract "fp" 400 [("fp", 0)]).2 0 (by decide) (by decide)

/-- Claim C3: the dispatcher never lets an exception escape — for every
network behavior it returns `.ok` — and it classifies each outcome as the
spec demands: a 2xx response passes the decoded body through (the payload
the controller then marks `triggered`), a timeout becomes the
`timeoutResult` dict (never a fatal error), a non-2xx status becomes
`statusErrorResult` carrying the status code and response text, and any
other transport failure becomes `errorResult` carrying its description. -/
theorem c3_dispatcher_never_raises (net : String → HttpOutcome)
    (alert : Alert) (webhook : Webhook) :
    (∃ j, trigger_agent_investigation net alert webhook = .ok j) ∧
    (∀ body, net (build_investigation_prompt alert webhook) = .success body →
      trigger_agent_investigation net alert webhook = .ok body) ∧
    (net (build_investigation_prompt alert webhook) = .timedOut →
      trigger_agent_investigation net alert webhook = .ok timeoutResult) ∧
    (∀ code text,
      net (build_investigation_prompt alert webhook) = .badStatus code text →
      trigger_agent_investigation net alert webhook =
        .ok (statusErrorResult code text)) ∧
    (∀ msg,
      net (build_investigation_prompt alert webhook) = .transportFailure msg →
      trigger_agent_investigation net alert webhook = .ok (errorResult msg)) := by
  cases h : net (build_investigation_prompt alert webhook) <;>
    simp [trigger_agent_investigation, tryBody, h]

/-- Witness for C3: a network that times out makes the dispatcher return
the timeout dict. -/
theorem c3_dispatcher_never_raises_witness :
    trigger_agent_investigation (fun _ => .timedOut)
      ⟨"firing", [], [], "t0", none, "u", "fp1"⟩
      ⟨"4", "g", "firing", "r", [], [], [], "e", []⟩ = .ok timeoutResult :=
  (c3_dispatcher_never_raises (fun _ => .timedOut)
    ⟨"firing", [], [], "t0", none, "u", "fp1"⟩
    ⟨"4", "g", "firing", "r", [], [], [], "e", []⟩).2.2.1 rfl

/-! ### Substring machinery for the prompt-completeness claim -/

theorem containsStr_suffix (s x : String) : ContainsStr (s ++ x) x :=
  ⟨s, "", by simp⟩

theorem containsStr_front (x t : String) : ContainsStr (x ++ t) x :=
  ⟨"", t, by simp⟩

theorem containsStr_suffix2 (s x y : String) :
    ContainsStr ((s ++ x) ++ y) (x ++ y) :=
  ⟨s, "", by simp [String.append_assoc]⟩

theorem containsStr_appendL (s t x : String) (h : ContainsStr s x) :
    ContainsStr (s ++ t) x := by
  obtain ⟨pre, post, rfl⟩ := h
  exact ⟨pre, post ++ t, by simp [String.append_assoc]⟩

theorem containsStr_appendR (s t x : String) (h : ContainsStr t x) :
    ContainsStr (s ++ t) x := by
  obtain ⟨pre, post, rfl⟩ := h
  exact ⟨s ++ pre, post, by simp [String.append_assoc]⟩

theorem containsStr_trans (t s x : String) (hts : ContainsStr t s)
    (hsx : ContainsStr s x) : ContainsStr t x := by
  obtain ⟨a, b, rfl⟩ := hts
  obtain ⟨c, d, rfl⟩ := hsx
  exact ⟨a ++ c, d ++ b, by simp [String.append_assoc]⟩

theorem pyJoin_contains (sep x : String) :
    ∀ xs : List String, x ∈ xs → ContainsStr (pyJoin sep xs) x
  | [], hx => absurd hx (List.not_mem_nil x)
  | [hd], hx => by
    obtain rfl : x = hd := List.mem_singleton.mp hx
    exact ⟨"", "", by simp [pyJoin]⟩
  | hd :: next :: rest, hx => by
    rcases List.mem_cons.mp hx with rfl | h
    · exact containsStr_appendL _ _ _ (containsStr_front _ _)
    · exact containsStr_appendR _ _ _ (pyJoin_contains sep x (next :: rest) h)

/-- Claim C9: reading the dedup cache is idempotent — two consecutive
`is_duplicate_alert` calls for the same fingerprint at the same time, with
no intervening mark, return the same boolean (the first call may evict an
expired entry, after which the second call also answers `false`). -/
theorem c9_dedup_read_idempotent (fp : String) (now : Nat) (cache : Cache) :
    (is_duplicate_alert fp now ((is_duplicate_alert fp now cache).2)).1 =
      (is_duplicate_alert fp now cache).1 := by
  cases hl : List.lookup fp cache with
  | none => simp [is_duplicate_alert, hl]
  | some t =>
    by_cases ht : now - t < ALERT_CACHE_TTL
    · simp [is_duplicate_alert, hl, ht]
    · simp [is_duplicate_alert, hl, ht, lookup_filter_key_ne]

/-- Claim C7: `build_investigation_prompt` is a pure function (it is a Lean
function of `(alert, webhook)` alone, so determinism is by construction),
its output contains the alert name, severity, status, start time,
fingerprint, every label pair, every annotation pair, the generator URL,
the namespace, the pod and the batch group key, and the placeholders
`"unknown"` / `"Unknown"` are substituted when the optional labels are
absent; the call never fails (it is total). -/
theorem c7_prompt_completeness (alert : Alert) (webhook : Webhook) :
    ContainsStr (build_investigation_prompt alert webhook)
      ("Alert Name: " ++ (List.lookup "alertname" alert.labels).getD "Unknown") ∧
    ContainsStr (build_investigation_prompt alert webhook)
      ("Severity: " ++ (List.lookup "severity" alert.labels).getD "unknown") ∧
    ContainsStr (build_investigation_prompt alert webhook)
      ("Status: " ++ alert.status) ∧
    ContainsStr (build_investigation_prompt alert webhook)
      ("Started At: " ++ alert.startsAt) ∧
    ContainsStr (build_investigation_prompt alert webhook)
      ("Fingerprint: " ++ alert.fingerprint) ∧
    (∀ p ∈ alert.labels,
      ContainsStr (build_investigation_prompt alert webhook) (fmtPair p)) ∧
    (∀ p ∈ alert.annotations,
      ContainsStr (build_investigation_prompt alert webhook) (fmtPair p)) ∧
    ContainsStr (build_investigation_prompt alert webhook)
      alert.generatorURL ∧
    ContainsStr (build_investigation_prompt alert webhook)
      ("- Namespace: " ++ (List.lookup "namespace" alert.labels).getD "unknown") ∧
    ContainsStr (build_investigation_prompt alert webhook)
      ("- Pod: " ++ (List.lookup "pod" alert.labels).getD "unknown") ∧
    ContainsStr (build_investigation_prompt alert webhook)
      ("- Group Key: " ++ webhook.groupKey) ∧
    (List.lookup "severity" alert.labels = none →
      ContainsStr (build_investigation_prompt alert webhook)
        "Severity: unknown") ∧
    (List.lookup "alertname" alert.labels = none →
      ContainsStr (build_investigation_prompt alert webhook)
        "Alert Name: Unknown") := by
  refine ⟨?_, ?_, ?_, ?_, ?_, ?_, ?_, ?_, ?_, ?_, ?_, ?_, ?_⟩
  · simp only [build_investigation_prompt]
    repeat first
    | exact containsStr_suffix2 _ _ _
    | apply containsStr_appendL
  · simp only [build_investigation_prompt]
    repeat first
    | exact containsStr_suffix2 _ _ _
    | apply containsStr_appendL
  · simp only [build_investigation_prompt]
    repeat first
    | exact containsStr_suffix2 _ _ _
    | apply containsStr_appendL
  · simp only [build_investigation_prompt]
    repeat first
    | exact containsStr_suffix2 _ _ _
    | apply containsStr_appendL
  · simp only [build_investigation_prompt]
    repeat first
    | exact containsStr_suffix2 _ _ _
    | apply containsStr_appendL
  · intro p hp
    refine containsStr_trans _
      (pyJoin "\n" (List.map fmtPair alert.labels)) _ ?_
      (pyJoin_contains _ _ _ (List.mem_map_of_mem fmtPair hp))
    simp only [build_investigation_prompt]
    repeat first
    | exact containsStr_suffix _ _
    | apply containsStr_appendL
  · intro p hp
    refine containsStr_trans _
      (pyJoin "\n" (List.map fmtPair alert.annotations)) _ ?_
      (pyJoin_contains _ _ _ (List.mem_map_of_mem fmtPair hp))
    simp only [build_investigation_prompt]
    repeat first
    | exact containsStr_suffix _ _
    | apply containsStr_appendL
  · simp only [build_investigation_prompt]
    repeat first
    | exact containsStr_suffix _ _
    | apply containsStr_appendL
  · simp only [build_investigation_prompt]
    repeat first
    | exact containsStr_suffix2 _ _ _
    | apply containsStr_appendL
  · simp only [build_investigation_prompt]
    repeat first
    | exact containsStr_suffix2 _ _ _
    | apply containsStr_appendL
  · simp only [build_investigation_prompt]
    repeat first
    | exact containsStr_suffix2 _ _ _
    | apply containsStr_appendL
  · intro h
    rw [show ("Severity: unknown" : String) = "Severity: " ++ "unknown" from rfl]
    simp only [build_investigation_prompt, h, Option.getD_none]
    repeat first
    | exact containsStr_suffix2 _ _ _
    | apply containsStr_appendL
  · intro h
    rw [show ("Alert Name: Unknown" : String) = "Alert Name: " ++ "Unknown" from rfl]
    simp only [build_investigation_prompt, h, Option.getD_none]
    repeat first
    | exact containsStr_suffix2 _ _ _
    | apply containsStr_appendL

/-- Witness for C7: a concrete alert with no `severity` label and one
custom label pair; the prompt substitutes the `"unknown"` placeholder and
carries the label pair. -/
theorem c7_prompt_completeness_witness :
    ContainsStr
      (build_investigation_prompt
        ⟨"firing", [("team", "devops")], [], "t0", none, "u", "fp1"⟩
        ⟨"4", "g", "firing", "r", [], [], [], "e", []⟩)
      "Severity: unknown" ∧
    ContainsStr
      (build_investigation_prompt
        ⟨"firing", [("team", "devops")], [], "t0", none, "u", "fp1"⟩
        ⟨"4", "g", "firing", "r", [], [], [], "e", []⟩)
      (fmtPair ("team", "devops")) :=
  ⟨(c7_prompt_completeness
      ⟨"firing", [("team", "devops")], [], "t0", none, "u", "fp1"⟩
      ⟨"4", "g", "firing", "r", [], [], [], "e", []⟩).2.2.2.2.2.2.2.2.2.2.2.1
      (by decide),
   (c7_prompt_completeness
      ⟨"firing", [("team", "devops")], [], "t0", none, "u", "fp1"⟩
      ⟨"4", "g", "firing", "r", [], [], [], "e", []⟩).2.2.2.2.2.1
      ("team", "devops") (by simp)⟩

/-! ### Controller-loop structure lemmas -/

theorem processAlert_skip (dispatch : Alert → Except String Json) (now : Nat)
    (st : List Json × Cache) (a : Alert) (ha : a.status ≠ "firing") :
    processAlert dispatch now st a = st := by
  simp [processAlert, ha]

theorem processAlert_append (dispatch : Alert → Except String Json) (now : Nat)
    (init : List Json) (cache : Cache) (alert : Alert) :
    processAlert dispatch now (init, cache) alert =
      (init ++ alertContrib dispatch now cache alert,
       alertNextCache dispatch now cache alert) := by
  simp only [processAlert, alertContrib, alertNextCache]
  by_cases hs : alert.status ≠ "firing"
  · simp [hs]
  · rw [if_neg hs, if_neg hs]
    cases hdup : is_duplicate_alert alert.fingerprint now cache with
    | mk b cache1 =>
      cases b
      · cases hd : dispatch alert <;> simp
      · simp

theorem foldl_processAlert_append (dispatch : Alert → Except String Json)
    (now : Nat) (l : List Alert) :
    ∀ (init : List Json) (cache : Cache),
      List.foldl (processAlert dispatch now) (init, cache) l =
        (init ++ (List.foldl (processAlert dispatch now) ([], cache) l).1,
         (List.foldl (processAlert dispatch now) ([], cache) l).2) := by
  induction l with
  | nil => intro init cache; simp
  | cons a l ih =>
    intro init cache
    rw [List.foldl_cons, List.foldl_cons, processAlert_append,
        processAlert_append]
    rw [ih (init ++ alertContrib dispatch now cache a)
          (alertNextCache dispatch now cache a),
        ih ([] ++ alertContrib dispatch now cache a)
          (alertNextCache dispatch now cache a)]
    simp [List.append_assoc]

theorem foldl_processAlert_trace (dispatch : Alert → Except String Json)
    (now : Nat) (l : List Alert) :
    ∀ cache : Cache,
      (List.foldl (processAlert dispatch now) ([], cache) l).1 =
        (alertTrace dispatch now cache l).flatten := by
  induction l with
  | nil => intro cache; simp [alertTrace]
  | cons a l ih =>
    intro cache
    rw [List.foldl_cons, processAlert_append,
        foldl_processAlert_append dispatch now l]
    simp [alertTrace, ih]

theorem getField_triggeredEntry_fingerprint (fp an : String) (r : Json) :
    (triggeredEntry fp an r).getField "fingerprint" = some (.str fp) := by
  simp [triggeredEntry, Json.getField, List.lookup]

theorem getField_errorEntry_fingerprint (fp e : String) :
    (errorEntry fp e).getField "fingerprint" = some (.str fp) := by
  simp [errorEntry, Json.getField, List.lookup]

theorem alertContrib_cases (dispatch : Alert → Except String Json) (now : Nat)
    (cache : Cache) (alert : Alert) :
    alertContrib dispatch now cache alert = [] ∨
    (∃ r, alertContrib dispatch now cache alert =
      [triggeredEntry alert.fingerprint
        ((List.lookup "alertname" alert.labels).getD "Unknown") r]) ∨
    (∃ e, alertContrib dispatch now cache alert =
      [errorEntry alert.fingerprint e]) := by
  unfold alertContrib
  simp only [processAlert]
  by_cases hs : alert.status ≠ "firing"
  · simp [hs]
  · rw [if_neg hs]
    cases hdup : is_duplicate_alert alert.fingerprint now cache with
    | mk b cache1 =>
      cases b
      · cases hd : dispatch alert with
        | ok r => exact Or.inr (Or.inl ⟨r, by simp⟩)
        | error e => exact Or.inr (Or.inr ⟨e, by simp⟩)
      · exact Or.inl rfl

theorem alertTrace_forall2 (dispatch : Alert → Except String Json) (now : Nat)
    (l : List Alert) :
    ∀ cache : Cache,
      List.Forall₂ (fun contrib alert =>
          contrib.length ≤ 1 ∧
          ∀ e ∈ contrib,
            e.getField "fingerprint" = some (.str alert.fingerprint))
        (alertTrace dispatch now cache l) l := by
  induction l with
  | nil => intro cache; exact List.Forall₂.nil
  | cons a l ih =>
    intro cache
    refine List.Forall₂.cons ?_ (ih _)
    rcases alertContrib_cases dispatch now cache a with h | ⟨r, h⟩ | ⟨e, h⟩
    · simp [h]
    · simp [h, getField_triggeredEntry_fingerprint]
    · simp [h, getField_errorEntry_fingerprint]

/-- Claim C6: for every syntactically valid batch the aggregate reports
`alerts_received` equal to the number of alerts in the batch and
`alerts_processed` equal to the length of the results list; the results
list is the in-order concatenation of the per-alert contributions (each of
size at most one, keyed by that alert's fingerprint), so input order is
preserved; an empty alerts list yields a zero-processed, empty-results
aggregate with status `processed`, not an error. -/
theorem c6_aggregate_counts_and_order (dispatch : Alert → Except String Json)
    (now : Nat) (cache : Cache) (webhook : Webhook) :
    ((receive_alertmanager_webhook dispatch now cache webhook).1.getField
        "alerts_received" = some (.num (webhook.alerts.length : Int))) ∧
    (∃ rs : List Json,
      (receive_alertmanager_webhook dispatch now cache webhook).1.getField
          "results" = some (.arr rs) ∧
      (receive_alertmanager_webhook dispatch now cache webhook).1.getField
          "alerts_processed" = some (.num (rs.length : Int)) ∧
      rs = (alertTrace dispatch now (cleanup_alert_cache now cache)
              webhook.alerts).flatten ∧
      List.Forall₂ (fun contrib alert =>
          contrib.length ≤ 1 ∧
          ∀ e ∈ contrib,
            e.getField "fingerprint" = some (.str alert.fingerprint))
        (alertTrace dispatch now (cleanup_alert_cache now cache)
          webhook.alerts)
        webhook.alerts) ∧
    (webhook.alerts = [] →
      (receive_alertmanager_webhook dispatch now cache webhook).1.getField
          "alerts_processed" = some (.num 0) ∧
      (receive_alertmanager_webhook dispatch now cache webhook).1.getField
          "results" = some (.arr []) ∧
      (receive_alertmanager_webhook dispatch now cache webhook).1.getField
          "status" = some (.str "processed")) := by
  refine ⟨?_, ?_, ?_⟩
  · simp [receive_alertmanager_webhook, Json.getField, List.lookup]
  · refine ⟨(List.foldl (processAlert dispatch now)
      ([], cleanup_alert_cache now cache) webhook.alerts).1, ?_, ?_, ?_, ?_⟩
    · simp [receive_alertmanager_webhook, Json.getField, List.lookup]
    · simp [receive_alertmanager_webhook, Json.getField, List.lookup]
    · exact foldl_processAlert_trace dispatch now webhook.alerts _
    · exact alertTrace_forall2 dispatch now webhook.alerts _
  · intro hempty
    refine ⟨?_, ?_, ?_⟩ <;>
      simp [receive_alertmanager_webhook, hempty, Json.getField, List.lookup]

/-- Witness for C6 at a concrete batch: one firing alert, empty cache, a
network that answers 2xx; and the empty-batch clause at the empty batch. -/
theorem c6_aggregate_counts_and_order_witness :
    ((receive_alertmanager_webhook (fun _ => .ok .null) 0 []
        ⟨"4", "g", "firing", "r", [], [], [], "e",
          [⟨"firing", [], [], "t0", none, "u", "fp1"⟩]⟩).1.getField
          "alerts_received" = some (.num 1)) ∧
    ((receive_alertmanager_webhook (fun _ => .ok .null) 0 []
        ⟨"4", "g", "firing", "r", [], [], [], "e", []⟩).1.getField
          "alerts_processed" = some (.num 0)) := by
  constructor
  · exact (c6_aggregate_counts_and_order (fun _ => .ok .null) 0 []
      ⟨"4", "g", "firing", "r", [], [], [], "e",
        [⟨"firing", [], [], "t0", none, "u", "fp1"⟩]⟩).1
  · exact ((c6_aggregate_counts_and_order (fun _ => .ok .null) 0 []
      ⟨"4", "g", "firing", "r", [], [], [], "e", []⟩).2.2 rfl).1

/-- Claim C5: an alert whose status is not `"firing"` is skipped and
recorded nowhere — deleting it from the batch changes neither the results
list, nor the processed count, nor the final cache state (it is only
counted by `alerts_received`). -/
theorem c5_nonfiring_excluded (dispatch : Alert → Except String Json)
    (now : Nat) (cache : Cache) (v gk stt rcv : String)
    (gl cl ca : List (String × String)) (eu : String)
    (l1 l2 : List Alert) (a : Alert) (ha : a.status ≠ "firing") :
    ((receive_alertmanager_webhook dispatch now cache
        ⟨v, gk, stt, rcv, gl, cl, ca, eu, l1 ++ a :: l2⟩).1.getField "results" =
     (receive_alertmanager_webhook dispatch now cache
        ⟨v, gk, stt, rcv, gl, cl, ca, eu, l1 ++ l2⟩).1.getField "results") ∧
    ((receive_alertmanager_webhook dispatch now cache
        ⟨v, gk, stt, rcv, gl, cl, ca, eu, l1 ++ a :: l2⟩).1.getField
          "alerts_processed" =
     (receive_alertmanager_webhook dispatch now cache
        ⟨v, gk, stt, rcv, gl, cl, ca, eu, l1 ++ l2⟩).1.getField
          "alerts_processed") ∧
    ((receive_alertmanager_webhook dispatch now cache
        ⟨v, gk, stt, rcv, gl, cl, ca, eu, l1 ++ a :: l2⟩).2 =
     (receive_alertmanager_webhook dispatch now cache
        ⟨v, gk, stt, rcv, gl, cl, ca, eu, l1 ++ l2⟩).2) := by
  have key : List.foldl (processAlert dispatch now)
      ([], cleanup_alert_cache now cache) (l1 ++ a :: l2) =
      List.foldl (processAlert dispatch now)
        ([], cleanup_alert_cache now cache) (l1 ++ l2) := by
    rw [List.foldl_append, List.foldl_append, List.foldl_cons,
        processAlert_skip dispatch now _ a ha]
  refine ⟨?_, ?_, ?_⟩ <;>
    simp [receive_alertmanager_webhook, key, Json.getField, List.lookup]

/-- Witness for C5: a `resolved` alert in a singleton batch produces the
same (empty) results as the empty batch. -/
theorem c5_nonfiring_excluded_witness :
    (receive_alertmanager_webhook (fun _ => .ok .null) 0 []
        ⟨"4", "g", "resolved", "r", [], [], [], "e",
          [⟨"resolved", [], [], "t0", none, "u", "fp1"⟩]⟩).1.getField
        "results" =
    (receive_alertmanager_webhook (fun _ => .ok .null) 0 []
        ⟨"4", "g", "resolved", "r", [], [], [], "e", []⟩).1.getField
        "results" := by
  have h := c5_nonfiring_excluded (fun _ => .ok .null) 0 [] "4" "g" "resolved"
    "r" [] [] [] "e" [] [] ⟨"resolved", [], [], "t0", none, "u", "fp1"⟩
    (by decide)
  simpa using h.1

/-! ### Validation-boundary lemmas -/

theorem parseAlert_ok_not_missing (r : RawAlert) (a : Alert)
    (h : parseAlert r = .ok a) : r.missingRequired = false := by
  unfold parseAlert at h
  split at h <;> simp_all [RawAlert.missingRequired]

theorem parseAlerts_ok_not_missing :
    ∀ (rs : List RawAlert) (l : List Alert), parseAlerts rs = .ok l →
      rs.any RawAlert.missingRequired = false
  | [], _, _ => rfl
  | r :: rest, l, h => by
    unfold parseAlerts at h
    cases hr : parseAlert r with
    | error e => rw [hr] at h; simp at h
    | ok a =>
      cases hrest : parseAlerts rest with
      | error e => rw [hr, hrest] at h; simp at h
      | ok rest' =>
        simp [List.any_cons, parseAlert_ok_not_missing r a hr,
              parseAlerts_ok_not_missing rest rest' hrest]

theorem parseWebhook_ok_not_missing (w : RawWebhook) (wh : Webhook)
    (h : parseWebhook w = .ok wh) : w.missingRequired = false := by
  unfold parseWebhook at h
  split at h
  · split at h
    · simp_all [RawWebhook.missingRequired, parseAlerts_ok_not_missing]
    · simp_all
  all_goals simp_all [RawWebhook.missingRequired]

/-- Claim C8: an inbound payload missing a required field of the envelope
or of a contained alert fails validation, the request is rejected at the
boundary, and the dedup cache is returned exactly as it was — no cache
mutation occurs. -/
theorem c8_validation_before_processing (raw : RawWebhook)
    (dispatch : Alert → Except String Json) (now : Nat) (cache : Cache) :
    (raw.missingRequired = true → ∃ msg, parseWebhook raw = .error msg) ∧
    (∀ msg, parseWebhook raw = .error msg →
      handleWebhookRequest dispatch now cache raw = (.error msg, cache)) := by
  constructor
  · intro hmiss
    cases hp : parseWebhook raw with
    | error e => exact ⟨e, rfl⟩
    | ok wh =>
      rw [parseWebhook_ok_not_missing raw wh hp] at hmiss
      cases hmiss
  · intro msg hp
    simp [handleWebhookRequest, hp]

/-- Witness for C8: an envelope whose only alert lacks `fingerprint` is
rejected and the cache `[("fp0", 7)]` is untouched. -/
theorem c8_validation_before_processing_witness :
    (∃ msg,
      parseWebhook
        ⟨some "4", some "g", some "firing", some "r", some [], some [],
         some [], some "e",
         some [⟨some "firing", some [], some [], some "t0", none, some "u",
                none⟩]⟩ = .error msg) ∧
    handleWebhookRequest (fun _ => .ok .null) 0 [("fp0", 7)]
      ⟨some "4", some "g", some "firing", some "r", some [], some [],
       some [], some "e",
       some [⟨some "firing", some [], some [], some "t0", none, some "u",
              none⟩]⟩ =
      (.error "alert.fingerprint: field required", [("fp0", 7)]) := by
  constructor
  · exact (c8_validation_before_processing
      ⟨some "4", some "g", some "firing", some "r", some [], some [],
       some [], some "e",
       some [⟨some "firing", some [], some [], some "t0", none, some "u",
              none⟩]⟩ (fun _ => .ok .null) 0 [("fp0", 7)]).1 (by decide)
  · exact (c8_validation_before_processing
      ⟨some "4", some "g", some "firing", some "r", some [], some [],
       some [], some "e",
       some [⟨some "firing", some [], some [], some "t0", none, some "u",
              none⟩]⟩ (fun _ => .ok .null) 0 [("fp0", 7)]).2
      "alert.fingerprint: field required" (by rfl)

/-! ### Result-entry shape lemmas -/

theorem triggeredEntry_fields (fp an : String) (r : Json) :
    (triggeredEntry fp an r).getField "fingerprint" = some (.str fp) ∧
    (triggeredEntry fp an r).getField "status" = some (.str "triggered") ∧
    (triggeredEntry fp an r).getField "alertname" = some (.str an) ∧
    (triggeredEntry fp an r).getField "result" = some r := by
  refine ⟨?_, ?_, ?_, ?_⟩ <;> simp [triggeredEntry, Json.getField, List.lookup]

theorem errorEntry_fields (fp msg : String) :
    (errorEntry fp msg).getField "fingerprint" = some (.str fp) ∧
    (errorEntry fp msg).getField "status" = some (.str "error") ∧
    (errorEntry fp msg).getField "error" = some (.str msg) ∧
    (errorEntry fp msg).getField "alertname" = none := by
  refine ⟨?_, ?_, ?_, ?_⟩ <;> simp [errorEntry, Json.getField, List.lookup]

theorem alertTrace_entry_shape (dispatch : Alert → Except String Json)
    (now : Nat) (l : List Alert) :
    ∀ cache : Cache, ∀ contrib ∈ alertTrace dispatch now cache l,
      ∀ e ∈ contrib,
        (∃ fp an r, e = triggeredEntry fp an r) ∨
        (∃ fp msg, e = errorEntry fp msg) := by
  induction l with
  | nil => intro cache contrib hc; simp [alertTrace] at hc
  | cons a l ih =>
    intro cache contrib hc e he
    simp only [alertTrace] at hc
    rcases List.mem_cons.mp hc with rfl | hmem
    · rcases alertContrib_cases dispatch now cache a with h0 | ⟨r, h0⟩ | ⟨msg, h0⟩
      · rw [h0] at he; cases he
      · rw [h0] at he
        obtain rfl := List.mem_singleton.mp he
        exact Or.inl ⟨_, _, r, rfl⟩
      · rw [h0] at he
        obtain rfl := List.mem_singleton.mp he
        exact Or.inr ⟨_, msg, rfl⟩
    · exact ih _ contrib hmem e he

/-- Claim C4 (amended): every entry in the results list carries a
fingerprint and a status that is `triggered` or `error`; a `triggered`
entry also carries the alertname and the result payload, but an `error`
entry carries only the fingerprint, status and error message — it has NO
`alertname` field (the except-branch dict in the source omits it). -/
theorem c4_entry_shape_amended (dispatch : Alert → Except String Json)
    (now : Nat) (cache : Cache) (webhook : Webhook) (rs : List Json)
    (hrs : (receive_alertmanager_webhook dispatch now cache webhook).1.getField
      "results" = some (.arr rs)) :
    ∀ e ∈ rs,
      (∃ fp, e.getField "fingerprint" = some (.str fp)) ∧
      ((e.getField "status" = some (.str "triggered") ∧
        (∃ an, e.getField "alertname" = some (.str an)) ∧
        (∃ r, e.getField "result" = some r)) ∨
       (e.getField "status" = some (.str "error") ∧
        (∃ msg, e.getField "error" = some (.str msg)) ∧
        e.getField "alertname" = none)) := by
  have hrs' : (List.foldl (processAlert dispatch now)
      ([], cleanup_alert_cache now cache) webhook.alerts).1 = rs := by
    simpa [receive_alertmanager_webhook, Json.getField, List.lookup] using hrs
  intro e he
  rw [← hrs', foldl_processAlert_trace, List.mem_flatten] at he
  obtain ⟨contrib, hc, he⟩ := he
  rcases alertTrace_entry_shape dispatch now webhook.alerts _ contrib hc e he
    with ⟨fp, an, r, rfl⟩ | ⟨fp, msg, rfl⟩
  · exact ⟨⟨fp, (triggeredEntry_fields fp an r).1⟩,
      Or.inl ⟨(triggeredEntry_fields fp an r).2.1,
        ⟨an, (triggeredEntry_fields fp an r).2.2.1⟩,
        ⟨r, (triggeredEntry_fields fp an r).2.2.2⟩⟩⟩
  · exact ⟨⟨fp, (errorEntry_fields fp msg).1⟩,
      Or.inr ⟨(errorEntry_fields fp msg).2.1,
        ⟨msg, (errorEntry_fields fp msg).2.2.1⟩,
        (errorEntry_fields fp msg).2.2.2⟩⟩

/-- Counterexample for C4 as stated: when the per-alert dispatch call
raises (here with message `"boom"`), the controller's except-branch entry
has status `error` but no `alertname` field at all, so "every entry
contains an alertname" fails. -/
theorem c4_error_entry_lacks_alertname_counterexample :
    (receive_alertmanager_webhook (fun _ => .error "boom") 0 []
        ⟨"4", "g", "firing", "r", [], [], [], "e",
          [⟨"firing", [("alertname", "A")], [], "t0", none, "u", "fp1"⟩]⟩).1.getField
        "results" = some (.arr [errorEntry "fp1" "boom"]) ∧
    (errorEntry "fp1" "boom").getField "status" = some (.str "error") ∧
    (errorEntry "fp1" "boom").getField "alertname" = none := by
  refine ⟨by rfl, ?_, ?_⟩ <;> simp [errorEntry, Json.getField, List.lookup]

/-- Witness for the amended C4 at the same concrete input. -/
theorem c4_entry_shape_amended_witness :
    (∃ fp, (errorEntry "fp1" "boom").getField "fingerprint" =
      some (.str fp)) ∧
    (((errorEntry "fp1" "boom").getField "status" = some (.str "triggered") ∧
      (∃ an, (errorEntry "fp1" "boom").getField "alertname" =
        some (.str an)) ∧
      (∃ r, (errorEntry "fp1" "boom").getField "result" = some r)) ∨
     ((errorEntry "fp1" "boom").getField "status" = some (.str "error") ∧
      (∃ msg, (errorEntry "fp1" "boom").getField "error" =
        some (.str msg)) ∧
      (errorEntry "fp1" "boom").getField "alertname" = none)) :=
  c4_entry_shape_amended (fun _ => .error "boom") 0 []
    ⟨"4", "g", "firing", "r", [], [], [], "e",
      [⟨"firing", [("alertname", "A")], [], "t0", none, "u", "fp1"⟩]⟩
    [errorEntry "fp1" "boom"] (by rfl) (errorEntry "fp1" "boom") (by simp)

/-- Counterexample for C1 as stated: alerts A, B, C all firing with fresh
fingerprints; the network drops B's request with a transport failure.  The
dispatcher catches that failure internally and returns the error dict as
its result, so the controller's entry for B has top-level status
`triggered` (with the error payload nested inside `result`) — not the
`error` status the claim requires. -/
theorem c1_transport_error_marked_triggered_counterexample :
    ((receive_alertmanager_webhook
        (dispatchOf
          (fun x =>
            if x.fingerprint == "fpB" then .transportFailure "connection refused"
            else .success (.obj [("ok", .bool true)]))
          ⟨"4", "g", "firing", "r", [], [], [], "e",
            [⟨"firing", [("alertname", "A")], [], "t0", none, "u", "fpA"⟩,
             ⟨"firing", [("alertname", "B")], [], "t0", none, "u", "fpB"⟩,
             ⟨"firing", [("alertname", "C")], [], "t0", none, "u", "fpC"⟩]⟩)
        0 []
        ⟨"4", "g", "firing", "r", [], [], [], "e",
          [⟨"firing", [("alertname", "A")], [], "t0", none, "u", "fpA"⟩,
           ⟨"firing", [("alertname", "B")], [], "t0", none, "u", "fpB"⟩,
           ⟨"firing", [("alertname", "C")], [], "t0", none, "u", "fpC"⟩]⟩).1.getField
        "results" =
      some (.arr
        [triggeredEntry "fpA" "A" (.obj [("ok", .bool true)]),
         triggeredEntry "fpB" "B" (errorResult "connection refused"),
         triggeredEntry "fpC" "C" (.obj [("ok", .bool true)])])) ∧
    (triggeredEntry "fpB" "B" (errorResult "connection refused")).getField
        "status" = some (.str "triggered") ∧
    ¬ (triggeredEntry "fpB" "B" (errorResult "connection refused")).getField
        "status" = some (.str "error") := by
  refine ⟨by rfl, ?_, ?_⟩ <;> simp [triggeredEntry, Json.getField, List.lookup]

/-- Claim C1 (amended): for three firing, non-duplicate alerts [A, B, C]
where B's dispatch hits a transport failure and A's and C's succeed, the
batch response still has three results in order A, B, C and the failure
never aborts processing; but all three entries carry top-level status
`triggered` — B's failure is recorded inside its `result` payload (the
dispatcher's error dict), not as an `error`-status entry. -/
theorem c1_failure_isolation_amended (a b c : Alert)
    (v gk stt rcv : String) (gl cl ca : List (String × String)) (eu : String)
    (oracle : Alert → HttpOutcome) (now : Nat)
    (ha : a.status = "firing") (hb : b.status = "firing")
    (hc : c.status = "firing")
    (hab : a.fingerprint ≠ b.fingerprint)
    (hac : a.fingerprint ≠ c.fingerprint)
    (hbc : b.fingerprint ≠ c.fingerprint)
    (bodyA bodyC : Json) (msg : String)
    (hoa : oracle a = .success bodyA)
    (hob : oracle b = .transportFailure msg)
    (hoc : oracle c = .success bodyC) :
    (receive_alertmanager_webhook
        (dispatchOf oracle ⟨v, gk, stt, rcv, gl, cl, ca, eu, [a, b, c]⟩)
        now [] ⟨v, gk, stt, rcv, gl, cl, ca, eu, [a, b, c]⟩).1.getField
        "results" =
      some (.arr
        [triggeredEntry a.fingerprint
          ((List.lookup "alertname" a.labels).getD "Unknown") bodyA,
         triggeredEntry b.fingerprint
          ((List.lookup "alertname" b.labels).getD "Unknown") (errorResult msg),
         triggeredEntry c.fingerprint
          ((List.lookup "alertname" c.labels).getD "Unknown") bodyC]) := by
  have h1 : (b.fingerprint == a.fingerprint) = false :=
    beq_eq_false_iff_ne.mpr (Ne.symm hab)
  have h2 : (c.fingerprint == a.fingerprint) = false :=
    beq_eq_false_iff_ne.mpr (Ne.symm hac)
  have h3 : (c.fingerprint == b.fingerprint) = false :=
    beq_eq_false_iff_ne.mpr (Ne.symm hbc)
  simp [receive_alertmanager_webhook, cleanup_alert_cache, processAlert,
        is_duplicate_alert, markProcessed, dispatchOf,
        trigger_agent_investigation, tryBody, ha, hb, hc, hoa, hob, hoc,
        h1, h2, h3, Json.getField, List.lookup_cons]

/-- Witness for the amended C1 at the concrete alerts A, B, C. -/
theorem c1_failure_isolation_amended_witness :
    (receive_alertmanager_webhook
        (dispatchOf
          (fun x =>
            if x.fingerprint == "fpB" then .transportFailure "connection refused"
            else .success (.obj [("ok", .bool true)]))
          ⟨"4", "g", "firing", "r", [], [], [], "e",
            [⟨"firing", [("alertname", "A")], [], "t0", none, "u", "fpA"⟩,
             ⟨"firing", [("alertname", "B")], [], "t0", none, "u", "fpB"⟩,
             ⟨"firing", [("alertname", "C")], [], "t0", none, "u", "fpC"⟩]⟩)
        0 []
        ⟨"4", "g", "firing", "r", [], [], [], "e",
          [⟨"firing", [("alertname", "A")], [], "t0", none, "u", "fpA"⟩,
           ⟨"firing", [("alertname", "B")], [], "t0", none, "u", "fpB"⟩,
           ⟨"firing", [("alertname", "C")], [], "t0", none, "u", "fpC"⟩]⟩).1.getField
        "results" =
      some (.arr
        [triggeredEntry "fpA" "A" (.obj [("ok", .bool true)]),
         triggeredEntry "fpB" "B" (errorResult "connection refused"),
         triggeredEntry "fpC" "C" (.obj [("ok", .bool true)])]) := by
  have h := c1_failure_isolation_amended
    ⟨"firing", [("alertname", "A")], [], "t0", none, "u", "fpA"⟩
    ⟨"firing", [("alertname", "B")], [], "t0", none, "u", "fpB"⟩
    ⟨"firing", [("alertname", "C")], [], "t0", none, "u", "fpC"⟩
    "4" "g" "firing" "r" [] [] [] "e"
    (fun x =>
      if x.fingerprint == "fpB" then .transportFailure "connection refused"
      else .success (.obj [("ok", .bool true)]))
    0 rfl rfl rfl (by decide) (by decide) (by decide)
    (.obj [("ok", .bool true)]) (.obj [("ok", .bool true)])
    "connection refused" (by rfl) (by rfl) (by rfl)
  simpa using h

/-! ### Cache-survival lemmas for the retry-suppression claim -/

theorem is_duplicate_fresh (fp : String) (now : Nat) (c : Cache) (t : Nat)
    (h : List.lookup fp c = some t) (hf : now - t < ALERT_CACHE_TTL) :
    is_duplicate_alert fp now c = (true, c) := by
  simp [is_duplicate_alert, h, hf]

theorem lookup_is_duplicate_snd_ne (g fp : String) (now : Nat) (c : Cache)
    (t : Nat) (hne : g ≠ fp) (h : List.lookup fp c = some t) :
    List.lookup fp (is_duplicate_alert g now c).2 = some t := by
  unfold is_duplicate_alert
  cases hl : List.lookup g c with
  | none => exact h
  | some u =>
    by_cases hu : now - u < ALERT_CACHE_TTL
    · simpa [hu] using h
    · simp only [if_neg hu]
      exact lookup_filter_of_pass _ fp t c h
        (by simp [bne_iff_ne, Ne.symm hne])

theorem processAlert_snd_accepted (dispatch : Alert → Except String Json)
    (now : Nat) (st : List Json × Cache) (a : Alert)
    (ha : a.status = "firing")
    (hnd : (is_duplicate_alert a.fingerprint now st.2).1 = false) :
    (processAlert dispatch now st a).2 =
      markProcessed a.fingerprint now
        (is_duplicate_alert a.fingerprint now st.2).2 := by
  simp only [processAlert, ha, ne_eq, not_true_eq_false, if_false]
  cases hdup : is_duplicate_alert a.fingerprint now st.2 with
  | mk b cache1 =>
    cases b
    · cases hd : dispatch a <;> simp
    · rw [hdup] at hnd; simp at hnd

theorem processAlert_duplicate_skip (dispatch : Alert → Except String Json)
    (now : Nat) (st : List Json × Cache) (a : Alert) (t : Nat)
    (h : List.lookup a.fingerprint st.2 = some t)
    (ht : now - t < ALERT_CACHE_TTL) :
    processAlert dispatch now st a = st := by
  by_cases hs : a.status ≠ "firing"
  · exact processAlert_skip dispatch now st a hs
  · simp [processAlert, hs, is_duplicate_fresh a.fingerprint now st.2 t h ht]

theorem cache_entry_survives (dispatch : Alert → Except String Json)
    (now : Nat) (l : List Alert) (fp : String) (t : Nat)
    (hfresh : now - t < ALERT_CACHE_TTL) :
    ∀ st : List Json × Cache, List.lookup fp st.2 = some t →
      List.lookup fp (List.foldl (processAlert dispatch now) st l).2 =
        some t := by
  induction l with
  | nil => intro st h; exact h
  | cons a l ih =>
    intro st h
    rw [List.foldl_cons]
    apply ih
    by_cases hs : a.status ≠ "firing"
    · rw [processAlert_skip dispatch now st a hs]; exact h
    · by_cases hfp : a.fingerprint = fp
      · rw [processAlert_duplicate_skip dispatch now st a t (hfp ▸ h) hfresh]
        exact h
      · simp only [processAlert, if_neg hs]
        cases hdup : is_duplicate_alert a.fingerprint now st.2 with
        | mk b cache1 =>
          have hc1 : List.lookup fp cache1 = some t := by
            have hx := lookup_is_duplicate_snd_ne a.fingerprint fp now st.2 t
              hfp h
            rw [hdup] at hx
            exact hx
          cases b
          · cases hd : dispatch a <;>
              simpa [lookup_markProcessed_ne fp a.fingerprint now cache1
                (fun hx => hfp hx.symm)] using hc1
          · exact hc1

/-- Claim C10: a firing, non-duplicate alert is marked in the dedup cache
(fingerprint ↦ now) before the dispatch call, so the mark persists whatever
the dispatch returns or raises; consequently a repeat alert with the same
fingerprint inside the next 5 minutes contributes nothing to the second
batch's results — a failed investigation is not retried in the window. -/
theorem c10_mark_before_dispatch_suppresses_retry
    (dispatch dispatch2 : Alert → Except String Json) (now now2 : Nat)
    (cache : Cache)
    (v gk stt rcv : String) (gl cl ca : List (String × String)) (eu : String)
    (v2 gk2 stt2 rcv2 : String) (gl2 cl2 ca2 : List (String × String))
    (eu2 : String)
    (l1 l2 l3 l4 : List Alert) (a a2 : Alert)
    (ha : a.status = "firing")
    (hnotdup : (is_duplicate_alert a.fingerprint now
        (List.foldl (processAlert dispatch now)
          ([], cleanup_alert_cache now cache) l1).2).1 = false)
    (ha2 : a2.fingerprint = a.fingerprint)
    (hwin : now2 - now < ALERT_CACHE_TTL) :
    (List.lookup a.fingerprint
      (receive_alertmanager_webhook dispatch now cache
        ⟨v, gk, stt, rcv, gl, cl, ca, eu, l1 ++ a :: l2⟩).2 = some now) ∧
    ((receive_alertmanager_webhook dispatch2 now2
        (receive_alertmanager_webhook dispatch now cache
          ⟨v, gk, stt, rcv, gl, cl, ca, eu, l1 ++ a :: l2⟩).2
        ⟨v2, gk2, stt2, rcv2, gl2, cl2, ca2, eu2, l3 ++ a2 :: l4⟩).1.getField
        "results" =
     (receive_alertmanager_webhook dispatch2 now2
        (receive_alertmanager_webhook dispatch now cache
          ⟨v, gk, stt, rcv, gl, cl, ca, eu, l1 ++ a :: l2⟩).2
        ⟨v2, gk2, stt2, rcv2, gl2, cl2, ca2, eu2, l3 ++ l4⟩).1.getField
        "results") := by
  have hself : now - now < ALERT_CACHE_TTL := by
    simp [Nat.sub_self, ALERT_CACHE_TTL]
  have hpart1 : List.lookup a.fingerprint
      (receive_alertmanager_webhook dispatch now cache
        ⟨v, gk, stt, rcv, gl, cl, ca, eu, l1 ++ a :: l2⟩).2 = some now := by
    show List.lookup a.fingerprint
      (List.foldl (processAlert dispatch now)
        ([], cleanup_alert_cache now cache) (l1 ++ a :: l2)).2 = some now
    rw [List.foldl_append, List.foldl_cons]
    apply cache_entry_survives dispatch now l2 a.fingerprint now hself
    rw [processAlert_snd_accepted dispatch now _ a ha hnotdup]
    exact lookup_markProcessed_self a.fingerprint now _
  refine ⟨hpart1, ?_⟩
  set batchOneCache := (receive_alertmanager_webhook dispatch now cache
    ⟨v, gk, stt, rcv, gl, cl, ca, eu, l1 ++ a :: l2⟩).2 with hBC
  have hclean : List.lookup a.fingerprint
      (cleanup_alert_cache now2 batchOneCache) = some now := by
    refine lookup_filter_of_pass _ a.fingerprint now _ ?_ ?_
    · rw [hBC]; exact hpart1
    · simp [Nat.not_le.mpr hwin]
  have hsurv : List.lookup a.fingerprint
      (List.foldl (processAlert dispatch2 now2)
        ([], cleanup_alert_cache now2 batchOneCache) l3).2 = some now :=
    cache_entry_survives dispatch2 now2 l3 a.fingerprint now hwin _ hclean
  have key : List.foldl (processAlert dispatch2 now2)
      ([], cleanup_alert_cache now2 batchOneCache) (l3 ++ a2 :: l4) =
      List.foldl (processAlert dispatch2 now2)
        ([], cleanup_alert_cache now2 batchOneCache) (l3 ++ l4) := by
    rw [List.foldl_append, List.foldl_append, List.foldl_cons,
        processAlert_duplicate_skip dispatch2 now2 _ a2 now
          (by rw [ha2]; exact hsurv) hwin]
  simp only [receive_alertmanager_webhook]
  rw [key]
  simp [Json.getField, List.lookup]

/-- Witness for C10: alert `fp1` fails its investigation (the dispatch
raises), yet a repeat firing 100 seconds later is suppressed. -/
theorem c10_mark_before_dispatch_suppresses_retry_witness :
    (List.lookup "fp1"
      (receive_alertmanager_webhook (fun _ => .error "boom") 0 []
        ⟨"4", "g", "firing", "r", [], [], [], "e",
          [] ++ ⟨"firing", [], [], "t0", none, "u", "fp1"⟩ :: []⟩).2 =
      some 0) ∧
    ((receive_alertmanager_webhook (fun _ => .ok .null) 100
        (receive_alertmanager_webhook (fun _ => .error "boom") 0 []
          ⟨"4", "g", "firing", "r", [], [], [], "e",
            [] ++ ⟨"firing", [], [], "t0", none, "u", "fp1"⟩ :: []⟩).2
        ⟨"4", "g2", "firing", "r", [], [], [], "e",
          [] ++ ⟨"firing", [], [], "t1", none, "u", "fp1"⟩ :: []⟩).1.getField
        "results" =
     (receive_alertmanager_webhook (fun _ => .ok .null) 100
        (receive_alertmanager_webhook (fun _ => .error "boom") 0 []
          ⟨"4", "g", "firing", "r", [], [], [], "e",
            [] ++ ⟨"firing", [], [], "t0", none, "u", "fp1"⟩ :: []⟩).2
        ⟨"4", "g2", "firing", "r", [], [], [], "e", [] ++ []⟩).1.getField
        "results") :=
  c10_mark_before_dispatch_suppresses_retry
    (fun _ => .error "boom") (fun _ => .ok .null) 0 100 []
    "4" "g" "firing" "r" [] [] [] "e"
    "4" "g2" "firing" "r" [] [] [] "e"
    [] [] [] []
    ⟨"firing", [], [], "t0", none, "u", "fp1"⟩
    ⟨"firing", [], [], "t1", none, "u", "fp1"⟩
    rfl (by rfl) rfl (by decide)
